import Mathlib

/-!
Shallow embedding of the Aurora Serverless GraphQL datasource walkthrough
(`packages/amplify-category-api/src/provider-utils/awscloudformation/
service-walkthroughs/appSync-rds-walkthrough.js`) and of the default-value
generator (`getAllDefaults`).

External collaborators (the provider SDK, the prompt library, the
spinner, telemetry, the print channel) are modelled by an explicit
environment of responses plus an event trace recording every observable
action, in program order.  Machine-level JS details: `Map` insertion
semantics, `String.prototype.startsWith` / `includes`, and the regex
test `/Access denied for user/` (a plain substring match) are embedded
directly.
-/

namespace AppSyncRds

/-- JS list-of-char version of `String.prototype.startsWith`: does the
second list start with the first? -/
def listStarts : List Char → List Char → Bool
  | [], _ => true
  | _ :: _, [] => false
  | p :: ps, c :: cs => p == c && listStarts ps cs

/-- Contiguous-substring test on char lists, used to embed both
`String.prototype.includes` and the regex test of a literal pattern. -/
def listHasSub (pat : List Char) : List Char → Bool
  | [] => pat.isEmpty
  | c :: cs => listStarts pat (c :: cs) || listHasSub pat cs

/-- JS `s.startsWith(pat)`. -/
def jsStartsWith (s pat : String) : Bool := listStarts pat.data s.data

/-- JS `s.includes(pat)`, also `/pat/.test(s)` for a literal pattern. -/
def jsIncludes (s pat : String) : Bool := listHasSub pat.data s.data

/-- One entry of `amplifyMeta[category]`: its key and its `service` tag. -/
structure ApiEntry where
  key : String
  service : String
deriving Repr, DecidableEq

/-- One element of `describeDBClusters().DBClusters`. -/
structure ClusterRecord where
  dbClusterIdentifier : String
  dbClusterArn : String
  dbClusterResourceId : String
  engineMode : String
deriving Repr, DecidableEq

/-- One element of `listSecrets(params).SecretList`. -/
structure SecretRecord where
  name : String
  arn : String
deriving Repr, DecidableEq

/-- One element of `describeDBClusters({DBClusterIdentifier}).DBClusters`. -/
structure DescribedCluster where
  engine : String
deriving Repr, DecidableEq

/-- A JS error thrown by `executeStatement`, with its `code` and `message`. -/
structure JsError where
  code : String
  message : String
deriving Repr, DecidableEq

/-- The record returned by a successful `serviceWalkthrough` run. -/
structure WalkthroughResult where
  region : String
  dbClusterArn : String
  secretStoreArn : String
  databaseName : String
  resourceName : String
deriving Repr, DecidableEq

/-- The caller-visible part of the host `context` object that this code
writes to: `selectDatabase` assigns `context.isPostgres`. -/
structure Context where
  isPostgres : Option Bool
deriving Repr, DecidableEq

/-- Observable actions, recorded in program order. -/
inductive Event where
  | printError (msg : String)
  | emitError (errName : String) (msg : String)
  | promptQuestion (idx : Nat) (choices : List String)
  | sdkCall (name : String)
  | executeSql (sql : String)
  | spinStart (msg : String)
  | spinSucceed (msg : String)
  | spinFail (msg : String)
deriving Repr, DecidableEq

/-- The cloud-provider responses a run of the walkthrough consumes.
`secretsFirstPage` is the `SecretList` of the initial `listSecrets` call;
`secretsMorePages` are the pages fetched through `NextToken` threading
(a `NextToken` is present on a page exactly when a further page
follows). -/
structure ProviderEnv where
  clusters : List ClusterRecord
  secretsFirstPage : List SecretRecord
  secretsMorePages : List (List SecretRecord)
  describedClusters : List DescribedCluster
  execOutcome : Except JsError (List (List String))
deriving Repr

/-- Modelled from the spec: the prompt collaborator (inquirer) renders a
single-select question and returns one of the offered choices; the
user's pick is modelled as an index into the choice list. -/
structure Answers where
  regionIdx : Nat
  clusterIdx : Nat
  secretIdx : Nat
  databaseIdx : Nat
deriving Repr, DecidableEq

/-- Outcome of a walkthrough step.  Modelled from the spec:
`exitOnNextTick` (from `amplify-cli-core`, not under `src/`) is the
immediate-terminate primitive, so `exited` ends the run; `crashed`
marks an uncaught JS `TypeError` (unreachable under the prompt
contract). -/
inductive Outcome (α : Type) where
  | ok (a : α)
  | exited (code : Nat)
  | crashed
deriving Repr, DecidableEq

/-- `promptWalkthroughQuestion(inputs, questionNumber, choicesList)`:
returns the selected value and records the rendered prompt. -/
def promptWalkthroughQuestion (questionNumber : Nat) (choicesList : List String)
    (answerIdx : Nat) : String × Event :=
  (choicesList.getD (answerIdx % choicesList.length) "",
   Event.promptQuestion questionNumber choicesList)

/-- Keys of a JS `Map` built by repeated `set`: first occurrence keeps
its position, duplicates do not add a key. -/
def jsMapKeys (l : List (String × String)) : List String :=
  l.foldl (fun acc p => if acc.contains p.1 then acc else acc ++ [p.1]) []

/-- `Map.get`: the value of the latest `set` for the key. -/
def jsMapGet (l : List (String × String)) (k : String) : Option String :=
  (l.reverse.find? (fun p => p.1 == k)).map (·.2)

/-- Keys of the `clusters` map keyed by `DBClusterIdentifier`. -/
def clusterMapKeys (l : List ClusterRecord) : List String :=
  l.foldl
    (fun acc c =>
      if acc.contains c.dbClusterIdentifier then acc else acc ++ [c.dbClusterIdentifier]) []

/-- `clusters.get(id)`: the latest record stored under the identifier. -/
def clusterMapGet (l : List ClusterRecord) (k : String) : Option ClusterRecord :=
  l.reverse.find? (fun c => c.dbClusterIdentifier == k)

def noClustersMsg : String := "No properly configured Aurora Serverless clusters found."

def noSecretsMsg : String := "No RDS access credentials found in the AWS Secrect Manager."

def noDatabasesMsg : String := "No properly configured databases found."

def apiMissingMsg : String :=
  "You must create an AppSync API in your project before adding a graphql datasource. Please use \"amplify api add\" to create the API."

/-- The `SELECT datname FROM pg_database;` statement and its alternative. -/
def sqlStatementFor (isPg : Bool) : String :=
  if isPg then "SELECT datname FROM pg_database;" else "show databases"

/-- The `validRecordValues` reserved-name set picked per engine family. -/
def validRecordValuesFor (isPg : Bool) : List String :=
  if isPg then ["rdsadmin", "postgres", "template1", "template0"]
  else ["information_schema", "performance_schema", "mysql"]

def fetchingMsg : String := "Fetching Aurora Serverless cluster..."

def fetchedMsg : String := "Fetched Aurora Serverless cluster."

/-- Remediation message printed on the access-denied pattern. -/
def accessDeniedMsg (secretArn : String) : String :=
  "Ensure that \x27" ++ secretArn ++
    "\x27 contains your database credentials. Please note that Aurora Serverless does not support IAM database authentication."

/-- `selectCluster`: filter `describeDBClusters` output to `EngineMode ===
"serverless"` entries (stored in a `Map` keyed by identifier), exit when
none, otherwise prompt (question 1) and return the selected cluster's
ARN and internal resource id. -/
def selectCluster (env : ProviderEnv) (ans : Answers) :
    Outcome (String × String) × List Event :=
  let eligible := env.clusters.filter (fun c => c.engineMode == "serverless")
  let keys := clusterMapKeys eligible
  if keys.isEmpty then
    (Outcome.exited 0,
     [Event.sdkCall "describeDBClusters", Event.printError noClustersMsg,
      Event.emitError "ResourceDoesNotExistError" noClustersMsg])
  else
    let q := promptWalkthroughQuestion 1 keys ans.clusterIdx
    match clusterMapGet eligible q.1 with
    | some c =>
      (Outcome.ok (c.dbClusterArn, c.dbClusterResourceId),
       [Event.sdkCall "describeDBClusters", q.2])
    | none => (Outcome.crashed, [Event.sdkCall "describeDBClusters", q.2])

/-- The `rawSecrets` accumulator after the `while (token)` loop: the
first page followed by every further page, in order. -/
def rawSecretsOf (env : ProviderEnv) : List SecretRecord :=
  env.secretsFirstPage ++ env.secretsMorePages.flatten

/-- One `listSecrets` call for the initial request, then one per
continuation token followed. -/
def secretCallEvents (env : ProviderEnv) : List Event :=
  Event.sdkCall "listSecrets" :: env.secretsMorePages.map (fun _ => Event.sdkCall "listSecrets")

/-- The name pattern of a secret store created by Aurora Serverless. -/
def credName (clusterResourceId : String) : String :=
  "rds-db-credentials/" ++ clusterResourceId

/-- The detection loop over `rawSecrets`: stop at the first secret whose
name starts with the pattern; entries seen before a match are `set`
into the fallback map. -/
def scanSecrets (clusterResourceId : String) :
    List SecretRecord → Option String × List (String × String)
  | [] => (none, [])
  | s :: rest =>
    if jsStartsWith s.name (credName clusterResourceId) then (some s.arn, [])
    else
      let r := scanSecrets clusterResourceId rest
      (r.1, (s.name, s.arn) :: r.2)

/-- The part of `getSecretStoreArn` that runs after pagination, on the
accumulated `rawSecrets`. -/
def secretSelect (clusterResourceId : String) (rawSecrets : List SecretRecord)
    (ans : Answers) : Outcome String × List Event :=
  let scan := scanSecrets clusterResourceId rawSecrets
  match scan.1 with
  | some arnV => (Outcome.ok arnV, [])
  | none =>
    let keys := jsMapKeys scan.2
    if keys.isEmpty then
      (Outcome.exited 0,
       [Event.printError noSecretsMsg,
        Event.emitError "ResourceCredentialsNotFoundError" noSecretsMsg])
    else
      let q := promptWalkthroughQuestion 2 keys ans.secretIdx
      match jsMapGet scan.2 q.1 with
      | some arnV => (Outcome.ok arnV, [q.2])
      | none => (Outcome.crashed, [q.2])

/-- `getSecretStoreArn`: paginate `listSecrets` until no `NextToken`
remains, then auto-detect / prompt over the combined listing. -/
def getSecretStoreArn (env : ProviderEnv) (ans : Answers)
    (clusterResourceId : String) : Outcome String × List Event :=
  let r := secretSelect clusterResourceId (rawSecretsOf env) ans
  (r.1, secretCallEvents env ++ r.2)

/-- `dbCluster.DBClusters.some(cluster => cluster.Engine.includes('postgres'))`. -/
def describedPostgres (env : ProviderEnv) : Bool :=
  env.describedClusters.any (fun c => jsIncludes c.engine "postgres")

/-- The `databaseList` built from `dataApiResult.records`: the first
cell's `stringValue` of each row, excluding the reserved names.  A row
is an array of cells; `record[0].stringValue` assumes a non-empty row. -/
def buildDatabaseList (valid : List String) (records : List (List String)) : List String :=
  (records.map (fun record => record.headD "")).filter (fun v => !(valid.contains v))

/-- `selectDatabase`: describe the cluster, classify the engine
(assigning `context.isPostgres`), run the engine-appropriate statement,
filter the rows, and prompt (question 3) or terminate; any statement
error is caught, optionally printing the access-denied remediation. -/
def selectDatabase (ctx : Context) (env : ProviderEnv) (ans : Answers)
    (clusterArn secretArn : String) : Outcome String × Context × List Event :=
  let isPg := describedPostgres env
  let ctx2 : Context := ⟨some isPg⟩
  let evBase : List Event :=
    [Event.sdkCall "describeDBClusters", Event.spinStart fetchingMsg,
     Event.executeSql (sqlStatementFor isPg)]
  match env.execOutcome with
  | Except.ok records =>
    let databaseList := buildDatabaseList (validRecordValuesFor isPg) records
    let ev1 := evBase ++ [Event.spinSucceed fetchedMsg]
    if databaseList.isEmpty then
      (Outcome.exited 0, ctx2,
       ev1 ++ [Event.printError noDatabasesMsg,
         Event.emitError "ResourceDoesNotExistError" noDatabasesMsg])
    else
      let q := promptWalkthroughQuestion 3 databaseList ans.databaseIdx
      (Outcome.ok q.1, ctx2, ev1 ++ [q.2])
  | Except.error err =>
    let evDiag :=
      if err.code == "BadRequestException" && jsIncludes err.message "Access denied for user"
      then [Event.printError (accessDeniedMsg secretArn)] else []
    (Outcome.exited 0, ctx2,
     evBase ++ [Event.spinFail err.message] ++ evDiag ++
       [Event.printError noDatabasesMsg,
        Event.emitError "ResourceDoesNotExistError" noDatabasesMsg])

/-- `amplifyMeta == null || amplifyMeta[category] == null ||
Object.keys(amplifyMeta[category]).length === 0`. -/
def apiPreconditionFails (meta : Option (Option (List ApiEntry))) : Bool :=
  match meta with
  | none => true
  | some none => true
  | some (some entries) => entries.isEmpty

/-- The entries of `amplifyMeta[category]`, empty when absent. -/
def apiCategoryEntries (meta : Option (Option (List ApiEntry))) : List ApiEntry :=
  match meta with
  | some (some entries) => entries
  | _ => []

/-- The loop over `Object.keys(amplifyMeta[category])` that breaks at
the first entry with `service === 'AppSync'`. -/
def findAppSync (entries : List ApiEntry) : Option String :=
  (entries.find? (fun e => e.service == "AppSync")).map (·.key)

/-- Number of API resources tagged with the target service type. -/
def appSyncCount (entries : List ApiEntry) : Nat :=
  (entries.filter (fun e => e.service == "AppSync")).length

/-- The walkthrough after the precondition gate, region prompt and
client acquisition: cluster, secret and database selection in order,
each terminating the run on its error paths. -/
def walkthroughAfterGate (ctx : Context) (appSyncApi selectedRegion : String)
    (env : ProviderEnv) (ans : Answers) :
    Outcome WalkthroughResult × Context × List Event :=
  match selectCluster env ans with
  | (Outcome.ok arns, evC) =>
    (match getSecretStoreArn env ans arns.2 with
     | (Outcome.ok secretArn, evS) =>
       (match selectDatabase ctx env ans arns.1 secretArn with
        | (Outcome.ok dbName, ctx2, evD) =>
          (Outcome.ok
             ⟨selectedRegion, arns.1, secretArn, dbName, appSyncApi⟩,
           ctx2, evC ++ evS ++ evD)
        | (Outcome.exited n, ctx2, evD) => (Outcome.exited n, ctx2, evC ++ evS ++ evD)
        | (Outcome.crashed, ctx2, evD) => (Outcome.crashed, ctx2, evC ++ evS ++ evD))
     | (Outcome.exited n, evS) => (Outcome.exited n, ctx, evC ++ evS)
     | (Outcome.crashed, evS) => (Outcome.crashed, ctx, evC ++ evS))
  | (Outcome.exited n, evC) => (Outcome.exited n, ctx, evC)
  | (Outcome.crashed, evC) => (Outcome.crashed, ctx, evC)

/-- `serviceWalkthrough`: precondition gate (twice: empty category, then
no `AppSync`-tagged resource), region prompt (question 0), provider
client acquisition, then the delegated selections; returns the final
outcome, the final host context, and the event trace. -/
def serviceWalkthrough (ctx : Context) (meta : Option (Option (List ApiEntry)))
    (availableRegions : List String) (env : ProviderEnv) (ans : Answers) :
    Outcome WalkthroughResult × Context × List Event :=
  if apiPreconditionFails meta then
    (Outcome.exited 0, ctx,
     [Event.printError apiMissingMsg,
      Event.emitError "ResourceDoesNotExistError" apiMissingMsg])
  else
    match findAppSync (apiCategoryEntries meta) with
    | none =>
      (Outcome.exited 0, ctx,
       [Event.printError apiMissingMsg,
        Event.emitError "ResourceDoesNotExistError" apiMissingMsg])
    | some appSyncApi =>
      let q := promptWalkthroughQuestion 0 availableRegions ans.regionIdx
      let rest := walkthroughAfterGate ctx appSyncApi q.1 env ans
      (rest.1, rest.2.1, q.2 :: Event.sdkCall "getConfiguredAWSClient" :: rest.2.2)

/-! Concrete fixtures used to exercise the model on closed inputs. -/

def ctx0 : Context := ⟨none⟩

def ans0 : Answers := ⟨0, 0, 0, 0⟩

def regions0 : List String := ["us-east-1", "us-west-2"]

def metaGood : Option (Option (List ApiEntry)) := some (some [⟨"mygraphql", "AppSync"⟩])

def metaTwo : Option (Option (List ApiEntry)) :=
  some (some [⟨"a1", "AppSync"⟩, ⟨"a2", "AppSync"⟩])

def metaNoApi : Option (Option (List ApiEntry)) := some (some [⟨"storage1", "S3"⟩])

def cluster0 : ClusterRecord := ⟨"mycluster", "arn:cluster", "cluster-ABC", "serverless"⟩

def envOk : ProviderEnv :=
  ⟨[cluster0],
   [⟨"other", "arn:o"⟩, ⟨"rds-db-credentials/cluster-ABC/x", "arn:secret:match"⟩],
   [],
   [⟨"aurora-postgresql"⟩],
   Except.ok [["template0"], ["orders"]]⟩

def envNoServerless : ProviderEnv :=
  ⟨[⟨"c1", "arn:c1", "res-1", "provisioned"⟩], [], [], [], Except.ok []⟩

def envTwoMatch : ProviderEnv :=
  ⟨[cluster0],
   [⟨"zzz", "arn:z"⟩, ⟨"rds-db-credentials/cluster-ABC/a", "arn:first"⟩,
    ⟨"rds-db-credentials/cluster-ABC/b", "arn:second"⟩],
   [], [⟨"aurora"⟩], Except.ok []⟩

def envPgRows : ProviderEnv :=
  ⟨[cluster0], [], [], [⟨"aurora-postgresql"⟩],
   Except.ok [["rdsadmin"], ["postgres"], ["app_db"]]⟩

def envMyRows : ProviderEnv :=
  ⟨[cluster0], [], [], [⟨"aurora-mysql"⟩],
   Except.ok [["information_schema"], ["performance_schema"], ["mysql"], ["orders"]]⟩

def errDenied : JsError := ⟨"BadRequestException", "Access denied for user admin"⟩

def envDenied : ProviderEnv :=
  ⟨[cluster0], [], [], [⟨"aurora"⟩], Except.error errDenied⟩

def errOther : JsError := ⟨"ThrottlingException", "Rate exceeded"⟩

def envErrOther : ProviderEnv :=
  ⟨[cluster0], [], [], [⟨"aurora"⟩], Except.error errOther⟩

end AppSyncRds

namespace ApiDefaults

/-- `providers.awscloudformation` in the project's amplify metadata. -/
structure AwsCfProvider where
  region : String
deriving Repr, DecidableEq

structure MetaProviders where
  awscloudformation : AwsCfProvider
deriving Repr, DecidableEq

structure ProjectAmplifyMeta where
  providers : MetaProviders
deriving Repr, DecidableEq

/-- The `project` argument of `getAllDefaults`. -/
structure Project where
  amplifyMeta : ProjectAmplifyMeta
deriving Repr, DecidableEq

/-- An unresolved CloudFormation template-parameter reference
`{ Ref: ... }`. -/
structure RefPlaceholder where
  ref : String
deriving Repr, DecidableEq

/-- The record returned by `getAllDefaults`. -/
structure Defaults where
  resourceName : String
  region : String
  convertPolicyName : String
  authRoleName : RefPlaceholder
  unauthRoleName : RefPlaceholder
deriving Repr, DecidableEq

/-- `const [shortId] = uuid.v4().split('-')`: the first dash-separated
segment of the generated identifier. -/
def shortIdOf (uuidStr : String) : String :=
  (uuidStr.splitOn "-").headD ""

/-- `getAllDefaults(project)`, with the freshly generated `uuid.v4()`
string made an explicit input. -/
def getAllDefaults (project : Project) (uuidStr : String) : Defaults :=
  let region := project.amplifyMeta.providers.awscloudformation.region
  let shortId := shortIdOf uuidStr
  ⟨shortId, region, "Policy" ++ shortId, ⟨"AuthRoleName"⟩, ⟨"UnauthRoleName"⟩⟩

end ApiDefaults


namespace AppSyncRds

/-! Helper lemmas about the embedded primitives. -/

theorem listStarts_append_self (p t : List Char) : listStarts p (p ++ t) = true := by
  induction p with
  | nil => rfl
  | cons c cs ih => simp [listStarts, ih]

theorem listHasSub_of_starts (p l : List Char) (h : listStarts p l = true) :
    listHasSub p l = true := by
  cases l with
  | nil =>
    cases p with
    | nil => rfl
    | cons c cs => simp [listStarts] at h
  | cons c cs => simp [listHasSub, h]

theorem listHasSub_append (p a b : List Char) : listHasSub p (a ++ (p ++ b)) = true := by
  induction a with
  | nil => exact listHasSub_of_starts p (p ++ b) (listStarts_append_self p b)
  | cons c cs ih => simp [listHasSub, ih]

theorem jsIncludes_sandwich (a s b : String) : jsIncludes (a ++ s ++ b) s = true := by
  obtain ⟨la⟩ := a
  obtain ⟨ls⟩ := s
  obtain ⟨lb⟩ := b
  show listHasSub ls (la ++ ls ++ lb) = true
  rw [List.append_assoc]
  exact listHasSub_append ls la lb

theorem accessDeniedMsg_head (s : String) : (accessDeniedMsg s).data.head? = some 'E' := by
  obtain ⟨l⟩ := s
  rfl

theorem accessDeniedMsg_ne_noDatabases (s : String) : accessDeniedMsg s ≠ noDatabasesMsg := by
  intro h
  have h1 := accessDeniedMsg_head s
  rw [h] at h1
  exact absurd h1 (by decide)

theorem scanSecrets_found (rid : String) (l : List SecretRecord) :
    (scanSecrets rid l).1 =
      (l.find? (fun t => jsStartsWith t.name (credName rid))).map (·.arn) := by
  induction l with
  | nil => rfl
  | cons s rest ih =>
    by_cases hs : jsStartsWith s.name (credName rid) = true
    · simp [scanSecrets, hs, List.find?_cons_of_pos]
    · simp [scanSecrets, hs, List.find?_cons_of_neg, ih]

theorem secretCallEvents_only_sdk (env : ProviderEnv) :
    ∀ e ∈ secretCallEvents env, e = Event.sdkCall "listSecrets" := by
  intro e he
  simp only [secretCallEvents, List.mem_cons, List.mem_map] at he
  rcases he with rfl | ⟨a, _, rfl⟩ <;> rfl

theorem secretSelect_no_sdk (rid : String) (raw : List SecretRecord) (ans : Answers) :
    ∀ s, Event.sdkCall s ∉ (secretSelect rid raw ans).2 := by
  intro s
  rcases h : scanSecrets rid raw with ⟨found, m⟩
  cases found with
  | some a => simp [secretSelect, h]
  | none =>
    by_cases hk : (jsMapKeys m).isEmpty = true
    · simp [secretSelect, h, hk]
    · unfold secretSelect
      rw [h]
      dsimp only
      rw [if_neg hk]
      split <;> simp [promptWalkthroughQuestion]

theorem selectDatabase_ctx (ctx : Context) (env : ProviderEnv) (ans : Answers)
    (clusterArn secretArn : String) :
    (selectDatabase ctx env ans clusterArn secretArn).2.1 =
      ⟨some (describedPostgres env)⟩ := by
  unfold selectDatabase
  cases env.execOutcome with
  | ok records =>
    dsimp only
    split <;> rfl
  | error err => rfl

theorem selectDatabase_executeSql_mem (ctx : Context) (env : ProviderEnv) (ans : Answers)
    (clusterArn secretArn : String) :
    Event.executeSql (sqlStatementFor (describedPostgres env)) ∈
      (selectDatabase ctx env ans clusterArn secretArn).2.2 := by
  unfold selectDatabase
  cases env.execOutcome with
  | ok records =>
    dsimp only
    split <;> simp
  | error err => simp

end AppSyncRds

namespace AppSyncRds

/-! Claim theorems. -/

/-- C2: whenever some secret in the combined listing has a name starting
with `rds-db-credentials/` ++ the selected cluster's internal resource
id, `getSecretStoreArn` returns the ARN of the first such secret in the
provider's iteration order (regardless of its position), and no prompt
is rendered. -/
theorem getSecretStoreArn_autodetect (env : ProviderEnv) (ans : Answers)
    (clusterResourceId : String)
    (h : ∃ s, (rawSecretsOf env).find?
        (fun t => jsStartsWith t.name (credName clusterResourceId)) = some s) :
    (∀ s, (rawSecretsOf env).find?
        (fun t => jsStartsWith t.name (credName clusterResourceId)) = some s →
      (getSecretStoreArn env ans clusterResourceId).1 = Outcome.ok s.arn) ∧
    ∀ i cs, Event.promptQuestion i cs ∉ (getSecretStoreArn env ans clusterResourceId).2 := by
  obtain ⟨s0, hs0⟩ := h
  have hscan : (scanSecrets clusterResourceId (rawSecretsOf env)).1 = some s0.arn := by
    rw [scanSecrets_found, hs0]
    rfl
  have hsel : secretSelect clusterResourceId (rawSecretsOf env) ans =
      (Outcome.ok s0.arn, []) := by
    simp [secretSelect, hscan]
  constructor
  · intro s hs
    rw [hs0] at hs
    injection hs with hse
    subst hse
    show (secretSelect clusterResourceId (rawSecretsOf env) ans).1 = Outcome.ok s0.arn
    rw [hsel]
  · intro i cs hmem
    have h2 : (getSecretStoreArn env ans clusterResourceId).2 = secretCallEvents env := by
      show secretCallEvents env ++ (secretSelect clusterResourceId (rawSecretsOf env) ans).2 =
        secretCallEvents env
      rw [hsel]
      simp
    rw [h2] at hmem
    have := secretCallEvents_only_sdk env _ hmem
    simp at this

/-- Witness for C2: a listing where the matching secret sits in the
middle and a second match follows; the first match's ARN is returned. -/
theorem getSecretStoreArn_autodetect_w :
    (∃ s, (rawSecretsOf envTwoMatch).find?
        (fun t => jsStartsWith t.name (credName "cluster-ABC")) = some s) ∧
    ((∀ s, (rawSecretsOf envTwoMatch).find?
        (fun t => jsStartsWith t.name (credName "cluster-ABC")) = some s →
       (getSecretStoreArn envTwoMatch ans0 "cluster-ABC").1 = Outcome.ok s.arn) ∧
     ∀ i cs, Event.promptQuestion i cs ∉ (getSecretStoreArn envTwoMatch ans0 "cluster-ABC").2) :=
  ⟨⟨⟨"rds-db-credentials/cluster-ABC/a", "arn:first"⟩, by decide⟩,
   getSecretStoreArn_autodetect envTwoMatch ans0 "cluster-ABC"
     ⟨⟨"rds-db-credentials/cluster-ABC/a", "arn:first"⟩, by decide⟩⟩

/-- C3: `getSecretStoreArn` follows continuation tokens until a page
carries none, concatenating every page in order into one candidate
sequence (so page sizes sum, e.g. 20 + 5 = 25) before the detection and
filtering logic runs on the combined list; every `listSecrets` call
precedes everything else in the trace, so no prompt appears
mid-pagination. -/
theorem getSecretStoreArn_pagination (env : ProviderEnv) (ans : Answers)
    (clusterResourceId : String) :
    rawSecretsOf env = env.secretsFirstPage ++ env.secretsMorePages.flatten ∧
    (rawSecretsOf env).length =
      env.secretsFirstPage.length + (env.secretsMorePages.map List.length).sum ∧
    (getSecretStoreArn env ans clusterResourceId).1 =
      (secretSelect clusterResourceId (rawSecretsOf env) ans).1 ∧
    ((getSecretStoreArn env ans clusterResourceId).2.countP
        (fun e => e == Event.sdkCall "listSecrets")) =
      1 + env.secretsMorePages.length ∧
    ∃ rest, (getSecretStoreArn env ans clusterResourceId).2 = secretCallEvents env ++ rest ∧
      (∀ i cs, Event.promptQuestion i cs ∉ secretCallEvents env) ∧
      Event.sdkCall "listSecrets" ∉ rest := by
  refine ⟨rfl, ?_, rfl, ?_, ?_⟩
  · simp [rawSecretsOf]
  · have h1 : (secretCallEvents env).countP (fun e => e == Event.sdkCall "listSecrets") =
        1 + env.secretsMorePages.length := by
      have hall : ∀ e ∈ secretCallEvents env, (e == Event.sdkCall "listSecrets") = true := by
        intro e he
        rw [secretCallEvents_only_sdk env e he]
        rfl
      rw [List.countP_eq_length.mpr hall]
      simp [secretCallEvents, Nat.add_comm]
    have h2 : ((secretSelect clusterResourceId (rawSecretsOf env) ans).2).countP
        (fun e => e == Event.sdkCall "listSecrets") = 0 := by
      rw [List.countP_eq_zero]
      intro a ha hbeq
      have ha2 : a = Event.sdkCall "listSecrets" := by simpa using hbeq
      exact secretSelect_no_sdk clusterResourceId (rawSecretsOf env) ans "listSecrets"
        (ha2 ▸ ha)
    show ((secretCallEvents env ++
        (secretSelect clusterResourceId (rawSecretsOf env) ans).2).countP
        (fun e => e == Event.sdkCall "listSecrets")) = 1 + env.secretsMorePages.length
    rw [List.countP_append, h1, h2]
    omega
  · refine ⟨(secretSelect clusterResourceId (rawSecretsOf env) ans).2, rfl, ?_, ?_⟩
    · intro i cs hmem
      have := secretCallEvents_only_sdk env _ hmem
      simp at this
    · exact secretSelect_no_sdk clusterResourceId (rawSecretsOf env) ans "listSecrets"

end AppSyncRds

/-- C10: for every project metadata object and generated identifier,
`getAllDefaults` returns a record whose resource name is the freshly
generated short identifier (first dash-separated segment of the uuid),
whose policy name is the fixed string "Policy" followed by that
identifier, whose region is the region looked up from project metadata,
and whose two role-name fields are unresolved `Ref` template-parameter
placeholders, not resolved values. -/
theorem getAllDefaults_shape (project : ApiDefaults.Project) (uuidStr : String) :
    (ApiDefaults.getAllDefaults project uuidStr).resourceName =
      ApiDefaults.shortIdOf uuidStr ∧
    (ApiDefaults.getAllDefaults project uuidStr).convertPolicyName =
      "Policy" ++ ApiDefaults.shortIdOf uuidStr ∧
    (ApiDefaults.getAllDefaults project uuidStr).region =
      project.amplifyMeta.providers.awscloudformation.region ∧
    (ApiDefaults.getAllDefaults project uuidStr).authRoleName = ⟨"AuthRoleName"⟩ ∧
    (ApiDefaults.getAllDefaults project uuidStr).unauthRoleName = ⟨"UnauthRoleName"⟩ :=
  ⟨rfl, rfl, rfl, rfl, rfl⟩

namespace AppSyncRds

/-- C4: on a successful statement execution, `selectDatabase` extracts
the first cell's string value of each returned row in row order and
drops exactly the values in the reserved set picked by the engine
classification: the Postgres set rdsadmin/postgres/template1/template0
for Postgres-classified clusters, and the set
information_schema/performance_schema/mysql otherwise; it then prompts
over precisely that candidate list (when it is non-empty), an
order-preserving sublist of the extracted row values. -/
theorem selectDatabase_database_filtering (ctx : Context) (env : ProviderEnv)
    (ans : Answers) (clusterArn secretArn : String) (records : List (List String))
    (hex : env.execOutcome = Except.ok records)
    (hne : buildDatabaseList (validRecordValuesFor (describedPostgres env)) records ≠ []) :
    Event.promptQuestion 3
        (buildDatabaseList (validRecordValuesFor (describedPostgres env)) records) ∈
      (selectDatabase ctx env ans clusterArn secretArn).2.2 ∧
    buildDatabaseList (validRecordValuesFor (describedPostgres env)) records =
      (records.map (fun record => record.headD "")).filter
        (fun v => !((validRecordValuesFor (describedPostgres env)).contains v)) ∧
    (∀ v ∈ buildDatabaseList (validRecordValuesFor (describedPostgres env)) records,
        v ∉ validRecordValuesFor (describedPostgres env)) ∧
    List.Sublist (buildDatabaseList (validRecordValuesFor (describedPostgres env)) records)
      (records.map (fun record => record.headD "")) ∧
    validRecordValuesFor true = ["rdsadmin", "postgres", "template1", "template0"] ∧
    validRecordValuesFor false = ["information_schema", "performance_schema", "mysql"] := by
  refine ⟨?_, rfl, ?_, List.filter_sublist _, rfl, rfl⟩
  · simp only [selectDatabase, hex, List.isEmpty_eq_false.mpr hne,
      Bool.false_eq_true, if_false]
    simp [promptWalkthroughQuestion]
  · intro v hv
    simp only [buildDatabaseList, List.mem_filter, Bool.not_eq_true'] at hv
    simpa using hv.2

/-- Witness for C4 on both engine families: rows rdsadmin, postgres,
app_db on a Postgres-classified cluster give the candidate list exactly
app_db; rows information_schema, performance_schema, mysql, orders on a
non-Postgres cluster give exactly orders. -/
theorem selectDatabase_database_filtering_w :
    describedPostgres envPgRows = true ∧
    buildDatabaseList (validRecordValuesFor true) [["rdsadmin"], ["postgres"], ["app_db"]] =
      ["app_db"] ∧
    describedPostgres envMyRows = false ∧
    buildDatabaseList (validRecordValuesFor false)
        [["information_schema"], ["performance_schema"], ["mysql"], ["orders"]] =
      ["orders"] ∧
    (Event.promptQuestion 3
        (buildDatabaseList (validRecordValuesFor (describedPostgres envPgRows))
          [["rdsadmin"], ["postgres"], ["app_db"]]) ∈
      (selectDatabase ctx0 envPgRows ans0 "arn:cluster" "arn:secret").2.2 ∧
     buildDatabaseList (validRecordValuesFor (describedPostgres envPgRows))
         [["rdsadmin"], ["postgres"], ["app_db"]] =
       (([["rdsadmin"], ["postgres"], ["app_db"]] :
           List (List String)).map (fun record => record.headD "")).filter
         (fun v => !((validRecordValuesFor (describedPostgres envPgRows)).contains v)) ∧
     (∀ v ∈ buildDatabaseList (validRecordValuesFor (describedPostgres envPgRows))
         [["rdsadmin"], ["postgres"], ["app_db"]],
        v ∉ validRecordValuesFor (describedPostgres envPgRows)) ∧
     List.Sublist
       (buildDatabaseList (validRecordValuesFor (describedPostgres envPgRows))
         [["rdsadmin"], ["postgres"], ["app_db"]])
       (([["rdsadmin"], ["postgres"], ["app_db"]] :
           List (List String)).map (fun record => record.headD "")) ∧
     validRecordValuesFor true = ["rdsadmin", "postgres", "template1", "template0"] ∧
     validRecordValuesFor false = ["information_schema", "performance_schema", "mysql"]) ∧
    (Event.promptQuestion 3
        (buildDatabaseList (validRecordValuesFor (describedPostgres envMyRows))
          [["information_schema"], ["performance_schema"], ["mysql"], ["orders"]]) ∈
      (selectDatabase ctx0 envMyRows ans0 "arn:cluster" "arn:secret").2.2 ∧
     buildDatabaseList (validRecordValuesFor (describedPostgres envMyRows))
         [["information_schema"], ["performance_schema"], ["mysql"], ["orders"]] =
       (([["information_schema"], ["performance_schema"], ["mysql"], ["orders"]] :
           List (List String)).map (fun record => record.headD "")).filter
         (fun v => !((validRecordValuesFor (describedPostgres envMyRows)).contains v)) ∧
     (∀ v ∈ buildDatabaseList (validRecordValuesFor (describedPostgres envMyRows))
         [["information_schema"], ["performance_schema"], ["mysql"], ["orders"]],
        v ∉ validRecordValuesFor (describedPostgres envMyRows)) ∧
     List.Sublist
       (buildDatabaseList (validRecordValuesFor (describedPostgres envMyRows))
         [["information_schema"], ["performance_schema"], ["mysql"], ["orders"]])
       (([["information_schema"], ["performance_schema"], ["mysql"], ["orders"]] :
           List (List String)).map (fun record => record.headD "")) ∧
     validRecordValuesFor true = ["rdsadmin", "postgres", "template1", "template0"] ∧
     validRecordValuesFor false = ["information_schema", "performance_schema", "mysql"]) :=
  ⟨by decide, by decide, by decide, by decide,
   selectDatabase_database_filtering ctx0 envPgRows ans0 "arn:cluster" "arn:secret"
     [["rdsadmin"], ["postgres"], ["app_db"]] rfl (by decide),
   selectDatabase_database_filtering ctx0 envMyRows ans0 "arn:cluster" "arn:secret"
     [["information_schema"], ["performance_schema"], ["mysql"], ["orders"]] rfl
     (by decide)⟩

/-- C5: with a singleton describe result, the cluster is classified
Postgres exactly when its engine name contains the substring "postgres"
(case-sensitive); the issued statement is the Postgres catalog query in
that case and the engine-native listing otherwise, with the matching
engine-specific exclusion sets. -/
theorem selectDatabase_engine_classification (ctx : Context) (env : ProviderEnv)
    (ans : Answers) (clusterArn secretArn : String) (c : DescribedCluster)
    (hd : env.describedClusters = [c]) :
    describedPostgres env = jsIncludes c.engine "postgres" ∧
    (selectDatabase ctx env ans clusterArn secretArn).2.1 =
      ⟨some (jsIncludes c.engine "postgres")⟩ ∧
    Event.executeSql (sqlStatementFor (jsIncludes c.engine "postgres")) ∈
      (selectDatabase ctx env ans clusterArn secretArn).2.2 ∧
    sqlStatementFor true = "SELECT datname FROM pg_database;" ∧
    sqlStatementFor false = "show databases" ∧
    validRecordValuesFor true = ["rdsadmin", "postgres", "template1", "template0"] ∧
    validRecordValuesFor false = ["information_schema", "performance_schema", "mysql"] := by
  have hpg : describedPostgres env = jsIncludes c.engine "postgres" := by
    simp [describedPostgres, hd]
  refine ⟨hpg, ?_, ?_, rfl, rfl, rfl, rfl⟩
  · rw [selectDatabase_ctx, hpg]
  · rw [← hpg]
    exact selectDatabase_executeSql_mem ctx env ans clusterArn secretArn

/-- Witness for C5 at the engine name aurora-postgresql (classified
Postgres); the capitalised variant is not matched, showing the test is
case-sensitive. -/
theorem selectDatabase_engine_classification_w :
    jsIncludes "aurora-postgresql" "postgres" = true ∧
    jsIncludes "aurora-POSTGRESQL" "postgres" = false ∧
    envOk.describedClusters = [⟨"aurora-postgresql"⟩] ∧
    (describedPostgres envOk =
        jsIncludes (DescribedCluster.mk "aurora-postgresql").engine "postgres" ∧
     (selectDatabase ctx0 envOk ans0 "arn:cluster" "arn:secret").2.1 =
       ⟨some (jsIncludes (DescribedCluster.mk "aurora-postgresql").engine "postgres")⟩ ∧
     Event.executeSql
         (sqlStatementFor
           (jsIncludes (DescribedCluster.mk "aurora-postgresql").engine "postgres")) ∈
       (selectDatabase ctx0 envOk ans0 "arn:cluster" "arn:secret").2.2 ∧
     sqlStatementFor true = "SELECT datname FROM pg_database;" ∧
     sqlStatementFor false = "show databases" ∧
     validRecordValuesFor true = ["rdsadmin", "postgres", "template1", "template0"] ∧
     validRecordValuesFor false = ["information_schema", "performance_schema", "mysql"]) :=
  ⟨by decide, by decide, rfl,
   selectDatabase_engine_classification ctx0 envOk ans0 "arn:cluster" "arn:secret"
     ⟨"aurora-postgresql"⟩ rfl⟩

/-- C6: when the statement execution fails with the access-denied
pattern, `selectDatabase` prints the remediation message (which names
the secret ARN) without re-raising, and still falls through to the
generic no-databases error, its telemetry emission, and termination, so
both messages are shown for the same cause. -/
theorem selectDatabase_access_denied (ctx : Context) (env : ProviderEnv) (ans : Answers)
    (clusterArn secretArn : String) (err : JsError)
    (he : env.execOutcome = Except.error err)
    (hcode : err.code = "BadRequestException")
    (hmsg : jsIncludes err.message "Access denied for user" = true) :
    (selectDatabase ctx env ans clusterArn secretArn).1 = Outcome.exited 0 ∧
    Event.printError (accessDeniedMsg secretArn) ∈
      (selectDatabase ctx env ans clusterArn secretArn).2.2 ∧
    Event.printError noDatabasesMsg ∈
      (selectDatabase ctx env ans clusterArn secretArn).2.2 ∧
    Event.emitError "ResourceDoesNotExistError" noDatabasesMsg ∈
      (selectDatabase ctx env ans clusterArn secretArn).2.2 ∧
    jsIncludes (accessDeniedMsg secretArn) secretArn = true := by
  have hcond : (err.code == "BadRequestException" &&
      jsIncludes err.message "Access denied for user") = true := by
    rw [hcode, hmsg]
    rfl
  refine ⟨?_, ?_, ?_, ?_, ?_⟩
  · simp [selectDatabase, he, hcond]
  · simp [selectDatabase, he, hcond]
  · simp [selectDatabase, he, hcond]
  · simp [selectDatabase, he, hcond]
  · unfold accessDeniedMsg
    exact jsIncludes_sandwich _ _ _

/-- Witness for C6 at a concrete access-denied error. -/
theorem selectDatabase_access_denied_w :
    envDenied.execOutcome = Except.error errDenied ∧
    errDenied.code = "BadRequestException" ∧
    jsIncludes errDenied.message "Access denied for user" = true ∧
    ((selectDatabase ctx0 envDenied ans0 "arn:cluster" "arn:secret").1 = Outcome.exited 0 ∧
     Event.printError (accessDeniedMsg "arn:secret") ∈
       (selectDatabase ctx0 envDenied ans0 "arn:cluster" "arn:secret").2.2 ∧
     Event.printError noDatabasesMsg ∈
       (selectDatabase ctx0 envDenied ans0 "arn:cluster" "arn:secret").2.2 ∧
     Event.emitError "ResourceDoesNotExistError" noDatabasesMsg ∈
       (selectDatabase ctx0 envDenied ans0 "arn:cluster" "arn:secret").2.2 ∧
     jsIncludes (accessDeniedMsg "arn:secret") "arn:secret" = true) :=
  ⟨rfl, rfl, by decide,
   selectDatabase_access_denied ctx0 envDenied ans0 "arn:cluster" "arn:secret" errDenied
     rfl rfl (by decide)⟩

/-- C9: every error thrown by the statement execution is caught and
never propagated: the run always falls through to the no-databases
error, its telemetry emission, and termination; the remediation message
is printed exactly when the error's code is BadRequestException and its
message matches the access-denied pattern. -/
theorem selectDatabase_catches_all (ctx : Context) (env : ProviderEnv) (ans : Answers)
    (clusterArn secretArn : String) (err : JsError)
    (he : env.execOutcome = Except.error err) :
    (selectDatabase ctx env ans clusterArn secretArn).1 = Outcome.exited 0 ∧
    Event.printError noDatabasesMsg ∈
      (selectDatabase ctx env ans clusterArn secretArn).2.2 ∧
    Event.emitError "ResourceDoesNotExistError" noDatabasesMsg ∈
      (selectDatabase ctx env ans clusterArn secretArn).2.2 ∧
    (Event.printError (accessDeniedMsg secretArn) ∈
        (selectDatabase ctx env ans clusterArn secretArn).2.2 ↔
      (err.code = "BadRequestException" ∧
        jsIncludes err.message "Access denied for user" = true)) := by
  by_cases hcond : (err.code == "BadRequestException" &&
      jsIncludes err.message "Access denied for user") = true
  · have hrhs : err.code = "BadRequestException" ∧
        jsIncludes err.message "Access denied for user" = true := by
      simpa [Bool.and_eq_true, beq_iff_eq] using hcond
    refine ⟨by simp [selectDatabase, he, hcond], by simp [selectDatabase, he, hcond],
      by simp [selectDatabase, he, hcond], ?_⟩
    constructor
    · intro _
      exact hrhs
    · intro _
      simp [selectDatabase, he, hcond]
  · have hrhs : ¬(err.code = "BadRequestException" ∧
        jsIncludes err.message "Access denied for user" = true) := by
      intro hpair
      exact hcond (by rw [hpair.1, hpair.2]; rfl)
    refine ⟨by simp [selectDatabase, he, hcond], by simp [selectDatabase, he, hcond],
      by simp [selectDatabase, he, hcond], ?_⟩
    constructor
    · intro hmem
      exfalso
      simp [selectDatabase, he, hcond, accessDeniedMsg_ne_noDatabases] at hmem
    · intro hpair
      exact absurd hpair hrhs

/-- Witness for C9 at an error that does not match the access-denied
pattern: the run still terminates through the no-databases path and the
remediation message is not printed. -/
theorem selectDatabase_catches_all_w :
    envErrOther.execOutcome = Except.error errOther ∧
    ((selectDatabase ctx0 envErrOther ans0 "arn:cluster" "arn:secret").1 =
        Outcome.exited 0 ∧
     Event.printError noDatabasesMsg ∈
       (selectDatabase ctx0 envErrOther ans0 "arn:cluster" "arn:secret").2.2 ∧
     Event.emitError "ResourceDoesNotExistError" noDatabasesMsg ∈
       (selectDatabase ctx0 envErrOther ans0 "arn:cluster" "arn:secret").2.2 ∧
     (Event.printError (accessDeniedMsg "arn:secret") ∈
         (selectDatabase ctx0 envErrOther ans0 "arn:cluster" "arn:secret").2.2 ↔
       (errOther.code = "BadRequestException" ∧
         jsIncludes errOther.message "Access denied for user" = true))) :=
  ⟨rfl,
   selectDatabase_catches_all ctx0 envErrOther ans0 "arn:cluster" "arn:secret" errOther rfl⟩

end AppSyncRds

namespace AppSyncRds

/-- C1 (amended): when no API resource is tagged AppSync (including a
missing or empty category), the walkthrough prints the resource-missing
error, emits it as telemetry, and terminates with exactly those two
events, so before any prompt or provider call; it proceeds past the
precondition check (straight to the region prompt) whenever at least
one API resource is tagged AppSync. -/
theorem serviceWalkthrough_precondition_gate (ctx : Context)
    (meta : Option (Option (List ApiEntry))) (regions : List String)
    (env : ProviderEnv) (ans : Answers) :
    (appSyncCount (apiCategoryEntries meta) = 0 →
      (serviceWalkthrough ctx meta regions env ans).1 = Outcome.exited 0 ∧
      (serviceWalkthrough ctx meta regions env ans).2.2 =
        [Event.printError apiMissingMsg,
         Event.emitError "ResourceDoesNotExistError" apiMissingMsg]) ∧
    (1 ≤ appSyncCount (apiCategoryEntries meta) →
      ((serviceWalkthrough ctx meta regions env ans).2.2).head? =
        some (Event.promptQuestion 0 regions)) := by
  constructor
  · intro h0
    have hnil : (apiCategoryEntries meta).filter (fun e => e.service == "AppSync") = [] :=
      List.length_eq_zero.mp h0
    have hfind : findAppSync (apiCategoryEntries meta) = none := by
      unfold findAppSync
      rw [List.find?_eq_none.mpr]
      · rfl
      · intro x hx hpx
        have hmem : x ∈ (apiCategoryEntries meta).filter (fun e => e.service == "AppSync") :=
          List.mem_filter.mpr ⟨hx, hpx⟩
        rw [hnil] at hmem
        exact absurd hmem (List.not_mem_nil x)
    unfold serviceWalkthrough
    split
    · exact ⟨rfl, rfl⟩
    · simp [hfind]
  · intro h1
    have hne : (apiCategoryEntries meta).filter (fun e => e.service == "AppSync") ≠ [] := by
      intro hnil
      have hz : appSyncCount (apiCategoryEntries meta) = 0 := by
        unfold appSyncCount
        rw [hnil]
        rfl
      omega
    obtain ⟨x, hxmem⟩ := List.exists_mem_of_ne_nil _ hne
    have hx := List.mem_filter.mp hxmem
    have hsome : ((apiCategoryEntries meta).find? (fun e => e.service == "AppSync")).isSome :=
      List.find?_isSome.mpr ⟨x, hx.1, hx.2⟩
    obtain ⟨a, ha⟩ := Option.isSome_iff_exists.mp hsome
    have hfind : findAppSync (apiCategoryEntries meta) = some a.key := by
      unfold findAppSync
      rw [ha]
      rfl
    have hpre : apiPreconditionFails meta = false := by
      rcases meta with _ | mopt
      · simpa [apiCategoryEntries] using hx.1
      rcases mopt with _ | l
      · simpa [apiCategoryEntries] using hx.1
      · show l.isEmpty = false
        rw [List.isEmpty_eq_false]
        exact List.ne_nil_of_mem hx.1
    simp [serviceWalkthrough, hpre, hfind, promptWalkthroughQuestion]

/-- Witness for C1 (amended): a metadata object with no AppSync-tagged
resource terminates with exactly the error events; one with an AppSync
resource reaches the region prompt. -/
theorem serviceWalkthrough_precondition_gate_w :
    ((serviceWalkthrough ctx0 metaNoApi regions0 envOk ans0).1 = Outcome.exited 0 ∧
     (serviceWalkthrough ctx0 metaNoApi regions0 envOk ans0).2.2 =
       [Event.printError apiMissingMsg,
        Event.emitError "ResourceDoesNotExistError" apiMissingMsg]) ∧
    ((serviceWalkthrough ctx0 metaGood regions0 envOk ans0).2.2).head? =
      some (Event.promptQuestion 0 regions0) :=
  ⟨(serviceWalkthrough_precondition_gate ctx0 metaNoApi regions0 envOk ans0).1 (by decide),
   (serviceWalkthrough_precondition_gate ctx0 metaGood regions0 envOk ans0).2 (by decide)⟩

/-- Counterexample to C1 as stated: with two API resources tagged
AppSync (not exactly one) the walkthrough still proceeds past the
precondition check, issues provider calls, and completes using the
first tagged resource. -/
theorem serviceWalkthrough_two_appsync_proceeds :
    appSyncCount (apiCategoryEntries metaTwo) = 2 ∧
    ((serviceWalkthrough ctx0 metaTwo regions0 envOk ans0).2.2).contains
        (Event.sdkCall "getConfiguredAWSClient") = true ∧
    (serviceWalkthrough ctx0 metaTwo regions0 envOk ans0).1 =
      Outcome.ok ⟨"us-east-1", "arn:cluster", "arn:secret:match", "orders", "a1"⟩ :=
  ⟨by decide, by decide, by decide⟩

/-- C7: when no listed cluster has engine mode serverless (including an
empty listing), `selectCluster` prints the no-clusters error, emits it
as telemetry, and terminates with exactly those events and no prompt;
in the full walkthrough, secret selection is never reached (no
`listSecrets` call appears in the trace). -/
theorem selectCluster_no_serverless (ctx : Context)
    (meta : Option (Option (List ApiEntry))) (regions : List String)
    (env : ProviderEnv) (ans : Answers)
    (h : ∀ c ∈ env.clusters, ¬ c.engineMode = "serverless") :
    selectCluster env ans =
      (Outcome.exited 0,
       [Event.sdkCall "describeDBClusters", Event.printError noClustersMsg,
        Event.emitError "ResourceDoesNotExistError" noClustersMsg]) ∧
    Event.sdkCall "listSecrets" ∉ (serviceWalkthrough ctx meta regions env ans).2.2 := by
  have hfil : env.clusters.filter (fun c => c.engineMode == "serverless") = [] := by
    rw [List.filter_eq_nil_iff]
    intro c hc
    simpa using h c hc
  have hsc : selectCluster env ans =
      (Outcome.exited 0,
       [Event.sdkCall "describeDBClusters", Event.printError noClustersMsg,
        Event.emitError "ResourceDoesNotExistError" noClustersMsg]) := by
    unfold selectCluster
    rw [hfil]
    rfl
  refine ⟨hsc, ?_⟩
  have hag : ∀ api region : String,
      (walkthroughAfterGate ctx api region env ans).2.2 =
        [Event.sdkCall "describeDBClusters", Event.printError noClustersMsg,
         Event.emitError "ResourceDoesNotExistError" noClustersMsg] := by
    intro api region
    unfold walkthroughAfterGate
    rw [hsc]
  unfold serviceWalkthrough
  split
  · simp
  · split
    · simp
    · simp [hag, promptWalkthroughQuestion]

/-- Witness for C7 at a listing whose only cluster is provisioned. -/
theorem selectCluster_no_serverless_w :
    (∀ c ∈ envNoServerless.clusters, ¬ c.engineMode = "serverless") ∧
    (selectCluster envNoServerless ans0 =
      (Outcome.exited 0,
       [Event.sdkCall "describeDBClusters", Event.printError noClustersMsg,
        Event.emitError "ResourceDoesNotExistError" noClustersMsg]) ∧
     Event.sdkCall "listSecrets" ∉
       (serviceWalkthrough ctx0 metaGood regions0 envNoServerless ans0).2.2) :=
  ⟨by decide,
   selectCluster_no_serverless ctx0 metaGood regions0 envNoServerless ans0 (by decide)⟩

/-- C8 (amended): the only caller-visible mutation the walkthrough
performs is the assignment of `isPostgres` on the host context during
database selection: on every run the final context is either the
initial one (when the run ends before database selection) or the
initial one with `isPostgres` set to the engine classification. -/
theorem serviceWalkthrough_context_frame (ctx : Context)
    (meta : Option (Option (List ApiEntry))) (regions : List String)
    (env : ProviderEnv) (ans : Answers) :
    (serviceWalkthrough ctx meta regions env ans).2.1 = ctx ∨
    (serviceWalkthrough ctx meta regions env ans).2.1 =
      ⟨some (describedPostgres env)⟩ := by
  unfold serviceWalkthrough
  split
  · left
    rfl
  · split
    · left
      rfl
    · dsimp only
      rcases hsc : selectCluster env ans with ⟨o, evC⟩
      cases o with
      | ok arns =>
        rcases hss : getSecretStoreArn env ans arns.2 with ⟨o2, evS⟩
        cases o2 with
        | ok sArn =>
          have hctx := selectDatabase_ctx ctx env ans arns.1 sArn
          rcases hsd : selectDatabase ctx env ans arns.1 sArn with ⟨o3, ctx2, evD⟩
          rw [hsd] at hctx
          cases o3 with
          | ok dbName =>
            right
            simp [walkthroughAfterGate, hsc, hss, hsd]
            exact hctx
          | exited n =>
            right
            simp [walkthroughAfterGate, hsc, hss, hsd]
            exact hctx
          | crashed =>
            right
            simp [walkthroughAfterGate, hsc, hss, hsd]
            exact hctx
        | exited n =>
          left
          simp [walkthroughAfterGate, hsc, hss]
        | crashed =>
          left
          simp [walkthroughAfterGate, hsc, hss]
      | exited n =>
        left
        simp [walkthroughAfterGate, hsc]
      | crashed =>
        left
        simp [walkthroughAfterGate, hsc]

/-- Counterexample to C8 as stated: a successful run returns its result
record but has also mutated the host context, whose `isPostgres` field
is now set. -/
theorem serviceWalkthrough_mutates_context :
    (serviceWalkthrough ctx0 metaGood regions0 envOk ans0).1 =
      Outcome.ok ⟨"us-east-1", "arn:cluster", "arn:secret:match", "orders", "mygraphql"⟩ ∧
    (serviceWalkthrough ctx0 metaGood regions0 envOk ans0).2.1 ≠ ctx0 :=
  ⟨by decide, by decide⟩

end AppSyncRds
